import Mathlib

/-!
Verification of the onepaper ingestion & hybrid-retrieval pipeline.

Shallow embedding of the Python sources:
  backend/src/backend/main.py    (read_papers, get_recommendations,
                                  submit_paper_for_processing)
  backend/src/backend/tasks.py   (extract_text_from_pdf, process_new_paper)
  backend/src/backend/models.py  (Paper row shape)
  processing/src/processing/process_pdfs.py
                                 (extract_text_from_pdf, process_batch_results_pdf)

The relational store (SQLite) is modelled as a list of rows, the vector index
(ChromaDB) by the identifier lists it returns, and external I/O (arXiv fetch,
LLM call, store availability) by an explicit environment record.
-/

/-! ## SQL LIKE semantics

SQLAlchemy `col.ilike(pat)` compiles to `lower(col) LIKE lower(pat)`.
SQLite LIKE: `%` matches any (possibly empty) sequence, `_` matches exactly
one character, every other pattern character matches itself; SQLite lower()
lowercases ASCII letters only, which is `Char.toLower`. A NULL column never
matches. -/

def likeMatchAux : Nat → List Char → List Char → Bool
  | 0, _, _ => false
  | _ + 1, [], s => s.isEmpty
  | fuel + 1, p :: ps, s =>
    if p = '%' then
      likeMatchAux fuel ps s ||
        (match s with
          | [] => false
          | _ :: s1 => likeMatchAux fuel (p :: ps) s1)
    else
      match s with
      | [] => false
      | c :: s1 => (p == '_' || p == c) && likeMatchAux fuel ps s1

/-- LIKE matching; every recursive step shrinks pattern + text by at least
one element, so this fuel always suffices. (Fuel keeps the recursion
structural, hence kernel-computable.) -/
def likeMatch (ps s : List Char) : Bool :=
  likeMatchAux (ps.length + s.length + 1) ps s

/-- SQLite lower(): ASCII-only lowercasing, character by character. -/
def sqlLower (s : String) : String := String.mk (s.data.map Char.toLower)

/-- `column.ilike(pat)`: `lower(column) LIKE lower(pat)`; NULL never matches. -/
def sqlIlike (column : Option String) (pat : String) : Bool :=
  match column with
  | none => false
  | some s => likeMatch (sqlLower pat).data (sqlLower s).data

/-! ## Data model (models.py class Paper; only the columns the claims touch) -/

structure PaperRow where
  id : String
  title : Option String
  abstract : Option String
  authors : Option String
  code_links : Option String
  processed : Option Int
deriving DecidableEq, Repr

/-! ## Hybrid search (main.py read_papers) -/

/-- `search_term_for_sql = f"%\x7bsearch\x7d%"` (main.py line 127). -/
def searchPattern (search : String) : String := "%" ++ search ++ "%"

/-- The CASE statement of main.py lines 134-138: score 3 on a title ilike
match, else 2 on an abstract ilike match, else 1. -/
def rankingScore (search : String) (p : PaperRow) : Nat :=
  if sqlIlike p.title (searchPattern search) then 3
  else if sqlIlike p.abstract (searchPattern search) then 2
  else 1

/-- ORDER BY ranking_score DESC, semantic_order ASC (main.py line 149).
`semantic_order` is the candidate's position in the semantic id list
(the `\x7bid: i\x7d` CASE of lines 141-144; the vector index returns each id
at most once, so the position is its index). -/
def hybridLe (search : String) (semanticIds : List String) (p q : PaperRow) : Prop :=
  rankingScore search q < rankingScore search p ∨
    (rankingScore search p = rankingScore search q ∧
      List.indexOf p.id semanticIds ≤ List.indexOf q.id semanticIds)

instance (s : String) (ids : List String) : DecidableRel (hybridLe s ids) :=
  fun p q => by unfold hybridLe; infer_instance

/-- The ordered candidate list of the query path: restrict the relational
store to the semantic candidates and sort by (score DESC, semantic rank ASC).
SQL ORDER BY yields a list sorted by these keys; with distinct ids on both
sides the keys are injective, so the ordering is unique and any sort
implements it. -/
def hybridOrdered (store : List PaperRow) (semanticIds : List String)
    (search : String) : List PaperRow :=
  List.insertionSort (hybridLe search semanticIds)
    (store.filter (fun p => decide (p.id ∈ semanticIds)))

/-- `code_links.isnot(None) AND code_links != "[]"` (main.py lines 157-159);
SQL three-valued logic drops NULL rows from the `!=` comparison too. -/
def hasCodeLinks (p : PaperRow) : Bool :=
  match p.code_links with
  | none => false
  | some s => s != "[]"

/-- The optional has_code filter (main.py lines 155-163). -/
def applyHasCodeFilter (has_code : Option Bool) (l : List PaperRow) : List PaperRow :=
  match has_code with
  | none => l
  | some true => l.filter hasCodeLinks
  | some false => l.filter (fun p => !(hasCodeLinks p))

structure SearchPage where
  total_items : Nat
  total_pages : Nat
  page : Nat
  per_page : Nat
  items : List PaperRow
deriving DecidableEq, Repr

/-- count / offset / limit / total_pages arithmetic (main.py lines 165-184).
`offset = (page - 1) * per_page`; SQLite clamps a negative offset to 0,
matching Nat subtraction for page = 0. -/
def mkPage (l : List PaperRow) (page per_page : Nat) : SearchPage :=
  { total_items := l.length
    total_pages := (l.length + per_page - 1) / per_page
    page := page
    per_page := per_page
    items := (l.drop ((page - 1) * per_page)).take per_page }

/-- ORDER BY title DESC of the no-query path (main.py line 153); SQLite
BINARY collation compared bytewise, NULL titles sort last under DESC. -/
def titleDescLe (p q : PaperRow) : Bool :=
  match p.title, q.title with
  | none, none => true
  | none, some _ => false
  | some _, none => true
  | some a, some b => decide (b.data ≤ a.data) || decide (b.data = a.data)

instance : DecidableRel (fun p q : PaperRow => titleDescLe p q = true) :=
  fun _ _ => inferInstance

def readPapersNoQuery (store : List PaperRow) (has_code : Option Bool)
    (page per_page : Nat) : SearchPage :=
  mkPage
    (applyHasCodeFilter has_code
      (List.insertionSort (fun p q => titleDescLe p q = true) store))
    page per_page

/-- GET /papers (main.py read_papers). `semanticIds` is what
`paper_collection.query(...n_results=200)` returned for the search string
(`results["ids"][0]`). `if search:` is Python truthiness: None and the empty
string both take the no-query path. The empty-candidate early return is the
literal dict of line 124. -/
def read_papers (store : List PaperRow) (semanticIds : List String)
    (search : Option String) (has_code : Option Bool)
    (page per_page : Nat) : SearchPage :=
  match search with
  | some s =>
    if s = "" then readPapersNoQuery store has_code page per_page
    else if semanticIds = [] then
      { total_items := 0, total_pages := 0, page := 1, per_page := per_page, items := [] }
    else
      mkPage (applyHasCodeFilter has_code (hybridOrdered store semanticIds s)) page per_page
  | none => readPapersNoQuery store has_code page per_page

/-! ## Recommendations (main.py get_recommendations) -/

/-- ORDER BY the `\x7bid: i\x7d` CASE over recommended_ids (main.py 212-214). -/
def recOrderLe (recommendedIds : List String) (p q : PaperRow) : Prop :=
  List.indexOf p.id recommendedIds ≤ List.indexOf q.id recommendedIds

instance (ids : List String) : DecidableRel (recOrderLe ids) :=
  fun p q => by unfold recOrderLe; infer_instance

/-- The relational join of main.py lines 215-220: rows whose id is among the
recommended ids, ordered by position in that list. -/
def joinPreservingOrder (store : List PaperRow) (recommendedIds : List String) :
    List PaperRow :=
  List.insertionSort (recOrderLe recommendedIds)
    (store.filter (fun p => decide (p.id ∈ recommendedIds)))

/-- GET /papers/\x7bpaper_id\x7d/recommendations. `chromaIds` is the set of ids
present in the vector index (the `paper_collection.get` presence check);
`neighbors` is `results["ids"][0]` of the 6-nearest-neighbor query. -/
def get_recommendations (chromaIds : List String) (neighbors : List String)
    (store : List PaperRow) (paper_id : String) : List PaperRow :=
  if paper_id ∈ chromaIds then
    let recommended_ids := neighbors.filter (fun pid => pid != paper_id)
    if recommended_ids = [] then []
    else joinPreservingOrder store recommended_ids
  else []

/-! ## Submission (main.py submit_paper_for_processing) -/

inductive SubmitResult where
  | accepted
  | conflict
  | enqueueError
deriving DecidableEq, Repr

/-- POST /papers/submit: 409 iff a row for the id exists with
`getattr(existing_paper, 'processed', 0) == 2` (the attribute always exists;
a NULL column reads as None and None == 2 is False); otherwise the task is
enqueued (500 on enqueue failure) and 202 returned. -/
def submit_paper_for_processing (store : List PaperRow) (enqueueOk : Bool)
    (arxiv_id : String) : SubmitResult :=
  match store.find? (fun p => p.id == arxiv_id) with
  | some p =>
    if p.processed == some 2 then SubmitResult.conflict
    else if enqueueOk then SubmitResult.accepted else SubmitResult.enqueueError
  | none => if enqueueOk then SubmitResult.accepted else SubmitResult.enqueueError

/-! ## Structured extraction results and the two store-write paths -/

structure ResultRec where
  metric : String
  value : String
  task : String
deriving DecidableEq, Repr

/-- The parsed LLM JSON object; `none` marks a key absent from the response
(`dict.get` distinguishes absent from present). -/
structure ExtractedInfo where
  title : Option String
  abstract : Option String
  contribution : Option String
  tasks : Option (List String)
  methods : Option (List String)
  datasets : Option (List String)
  code_links : Option (List String)
  results : Option (List ResultRec)
deriving DecidableEq, Repr

/-- A papers row as written by the ingestion paths (JSON-encoded list columns
modelled at list granularity; json.dumps is injective on them). -/
structure StoredPaper where
  id : String
  title : Option String
  abstract : Option String
  authors : Option String
  contribution : Option String
  tasks : List String
  methods : List String
  datasets : List String
  code_links : List String
  results : List ResultRec
  processed : Int
deriving DecidableEq, Repr

/-- Python str.strip(): whitespace removed from both ends. -/
def pyStrip (s : String) : String :=
  String.mk (((s.data.dropWhile Char.isWhitespace).reverse.dropWhile
    Char.isWhitespace).reverse)

/-- The INSERT of tasks.py lines 142-164: string fields via
`extracted_info.get('title')` etc. (None when the key is absent), list fields
via `extracted_info.get('tasks', [])` etc., processed = 2. -/
def storedRowFromWorker (arxiv_id : String) (authorsJoined : String)
    (info : ExtractedInfo) : StoredPaper :=
  { id := arxiv_id
    title := info.title
    abstract := info.abstract
    authors := some authorsJoined
    contribution := info.contribution
    tasks := info.tasks.getD []
    methods := info.methods.getD []
    datasets := info.datasets.getD []
    code_links := info.code_links.getD []
    results := info.results.getD []
    processed := 2 }

/-- The INSERT of process_pdfs.py lines 211-230: string fields via
`.get('title', '').strip()` (title, abstract) and `.get('contribution', '')`,
list fields via `.get(..., [])`; the batch INSERT has no authors column. -/
def storedRowFromBatch (paper_id : String) (info : ExtractedInfo) : StoredPaper :=
  { id := paper_id
    title := some (pyStrip (info.title.getD ""))
    abstract := some (pyStrip (info.abstract.getD ""))
    authors := none
    contribution := some (info.contribution.getD "")
    tasks := info.tasks.getD []
    methods := info.methods.getD []
    datasets := info.datasets.getD []
    code_links := info.code_links.getD []
    results := info.results.getD []
    processed := 2 }

/-! ## Text extraction (tasks.py / process_pdfs.py extract_text_from_pdf)

A document is its list of page texts. The source appends the first
min(total, 15) pages, then unconditionally appends the marker, then, when
total > 15, the pages from max(15, total - 10) to the end, and joins. -/

def PAGES_FROM_START : Nat := 15
def PAGES_FROM_END : Nat := 10

def TRUNCATION_MARKER : String := "\n\n... [DOCUMENT TRUNCATED] ...\n\n"

def extract_text_from_pdf (pages : List String) : String :=
  let total := pages.length
  let headParts := pages.take (min total PAGES_FROM_START)
  let tailParts :=
    if PAGES_FROM_START < total then
      pages.drop (max PAGES_FROM_START (total - PAGES_FROM_END))
    else []
  String.join (headParts ++ [TRUNCATION_MARKER] ++ tailParts)

/-! ## The ingestion job (tasks.py process_new_paper)

External effects are an environment: whether each fallible step succeeds and
what data it yields. The two stores are threaded explicitly; the trace
records which stages were reached. The job's terminal record is its return
value: "Success: ..." or, from the except block, "Failed: ...". -/

structure WorkerEnv where
  fetchOk : Bool
  authorsJoined : String
  downloadOk : Bool
  extractedText : Option String
  llmOk : Bool
  parsedInfo : Option ExtractedInfo
  embedOk : Bool
  sqliteOk : Bool
  chromaOk : Bool
deriving DecidableEq, Repr

structure Stores where
  sqliteRow : Option StoredPaper
  chromaHas : Bool
deriving DecidableEq, Repr

structure Trace where
  fetched : Bool := false
  downloaded : Bool := false
  extractCalled : Bool := false
  llmCalled : Bool := false
  parseCalled : Bool := false
  embedCalled : Bool := false
  sqliteWriteCalled : Bool := false
  chromaWriteCalled : Bool := false
deriving DecidableEq, Repr

inductive JobResult where
  | success
  | failed
deriving DecidableEq, Repr

/-- `if not full_text:` — Python truthiness: None and "" are both falsy. -/
def textTruthy : Option String → Bool
  | none => false
  | some s => s != ""

/-- tasks.py process_new_paper for one arXiv id: fetch → download → extract
→ LLM → json.loads → embed → SQLite INSERT ... processed = 2 → Chroma
upsert. Any raise lands in the except block, which returns the Failed
record; a failed SQLite commit leaves the row unchanged. -/
def process_new_paper (env : WorkerEnv) (s0 : Stores) (arxiv_id : String) :
    JobResult × Stores × Trace :=
  let t1 : Trace := { fetched := true }
  if env.fetchOk = false then (JobResult.failed, s0, t1) else
  let t2 := { t1 with downloaded := true }
  if env.downloadOk = false then (JobResult.failed, s0, t2) else
  let t3 := { t2 with extractCalled := true }
  if textTruthy env.extractedText = false then (JobResult.failed, s0, t3) else
  let t4 := { t3 with llmCalled := true }
  if env.llmOk = false then (JobResult.failed, s0, t4) else
  let t5 := { t4 with parseCalled := true }
  match env.parsedInfo with
  | none => (JobResult.failed, s0, t5)
  | some info =>
    let t6 := { t5 with embedCalled := true }
    if env.embedOk = false then (JobResult.failed, s0, t6) else
    let t7 := { t6 with sqliteWriteCalled := true }
    if env.sqliteOk = false then (JobResult.failed, s0, t7) else
    let s1 := { s0 with sqliteRow := some (storedRowFromWorker arxiv_id env.authorsJoined info) }
    let t8 := { t7 with chromaWriteCalled := true }
    if env.chromaOk = false then (JobResult.failed, s1, t8) else
    (JobResult.success, { s1 with chromaHas := true }, t8)

/-- The spec's cross-store consistency invariant for one identifier:
processed = 2 (completed) iff the vector record exists. -/
def consistencyInvariant (s : Stores) : Prop :=
  (s.sqliteRow.map StoredPaper.processed = some 2) ↔ s.chromaHas = true

/-- Modelled from the spec: the claim's "the query is a case-insensitive
substring of the title/abstract" — an occurrence test after ASCII
lowercasing, with no wildcard interpretation. Used only to compare the
claim's wording against the code's LIKE behavior. -/
def seqOccurs (hay needle : List Char) : Bool :=
  (List.range (hay.length + 1)).any (fun i => (hay.drop i).take needle.length == needle)

def specSubstringCI (q t : String) : Prop :=
  seqOccurs (sqlLower t).data (sqlLower q).data = true

/-! ## Concrete sample data used by witnesses and counterexamples -/

/-- A fully-present extraction result. -/
def infoSample : ExtractedInfo :=
  { title := some "Attention Is All You Need"
    abstract := some "We propose the Transformer."
    contribution := some "A new architecture."
    tasks := some ["Machine Translation"]
    methods := some ["Transformer"]
    datasets := some ["WMT 2014"]
    code_links := some []
    results := some [] }

/-- An extraction result with every key absent from the JSON object. -/
def infoEmpty : ExtractedInfo :=
  { title := none, abstract := none, contribution := none, tasks := none
    methods := none, datasets := none, code_links := none, results := none }

/-- A job in which everything succeeds except the ChromaDB upsert. -/
def envChromaFail : WorkerEnv :=
  { fetchOk := true
    authorsJoined := "Ashish Vaswani,Noam Shazeer"
    downloadOk := true
    extractedText := some ("some extracted text")
    llmOk := true
    parsedInfo := some infoSample
    embedOk := true
    sqliteOk := true
    chromaOk := false }

/-- A job in which the LLM call raises. -/
def envLlmFail : WorkerEnv :=
  { fetchOk := true
    authorsJoined := "A B"
    downloadOk := true
    extractedText := some ("text")
    llmOk := false
    parsedInfo := none
    embedOk := true
    sqliteOk := true
    chromaOk := true }

/-- Fresh stores: no relational row, no vector record for the identifier. -/
def storesEmpty : Stores := { sqliteRow := none, chromaHas := false }

/-- Spec section 8 ranking example: candidate A matches the query in the
title, B only in the abstract, C only semantically. -/
def rowA : PaperRow :=
  { id := "A", title := some "Transformers for Vision"
    abstract := some "An architecture study.", authors := none
    code_links := none, processed := some 2 }

def rowB : PaperRow :=
  { id := "B", title := some "Deep Nets"
    abstract := some "We study vision models.", authors := none
    code_links := none, processed := some 2 }

def rowC : PaperRow :=
  { id := "C", title := some "Graph Learning"
    abstract := some "Message passing.", authors := none
    code_links := none, processed := some 2 }

def storeABC : List PaperRow := [rowA, rowB, rowC]

/-- A title that the wildcard pattern matches although the query is not a
substring of it. -/
def rowWildcard : PaperRow :=
  { id := "W", title := some "ab", abstract := none, authors := none
    code_links := none, processed := some 2 }

/-- A 30-page document (spec section 8 truncation test case). -/
def pages30 : List String :=
  [("p01 "), ("p02 "), ("p03 "), ("p04 "), ("p05 "), ("p06 "), ("p07 "),
   ("p08 "), ("p09 "), ("p10 "), ("p11 "), ("p12 "), ("p13 "), ("p14 "),
   ("p15 "), ("p16 "), ("p17 "), ("p18 "), ("p19 "), ("p20 "), ("p21 "),
   ("p22 "), ("p23 "), ("p24 "), ("p25 "), ("p26 "), ("p27 "), ("p28 "),
   ("p29 "), ("p30 ")]

instance (q t : String) : Decidable (specSubstringCI q t) := by
  unfold specSubstringCI; infer_instance

instance (s : Stores) : Decidable (consistencyInvariant s) := by
  unfold consistencyInvariant; infer_instance

/-- Neighbor rows for the recommendation scenario; the relational insertion
order is deliberately different from the neighbor order, and P3 has no
relational row. -/
def rowX : PaperRow :=
  { id := "X", title := some "Source Paper", abstract := none, authors := none
    code_links := none, processed := some 2 }

def rowP1 : PaperRow :=
  { id := "P1", title := some "Neighbor One", abstract := none, authors := none
    code_links := none, processed := some 2 }

def rowP2 : PaperRow :=
  { id := "P2", title := some "Neighbor Two", abstract := none, authors := none
    code_links := none, processed := some 2 }

def rowP4 : PaperRow :=
  { id := "P4", title := some "Neighbor Four", abstract := none, authors := none
    code_links := none, processed := some 2 }

def rowP5 : PaperRow :=
  { id := "P5", title := some "Neighbor Five", abstract := none, authors := none
    code_links := none, processed := some 2 }

def storeP : List PaperRow := [rowX, rowP5, rowP1, rowP4, rowP2]

/-! ## Theorems -/

/-- C1: the claim requires that when the relational write succeeds and the
vector-store write then fails, processing_state is NOT left at completed.
The code violates this: tasks.py writes the SQLite row with processed = 2
(lines 138-166) before the ChromaDB upsert (lines 168-174), so a failing
upsert terminates the job with the row already marked completed. This
theorem evaluates the job at exactly that failing input. -/
theorem c1_vector_failure_leaves_completed :
    (process_new_paper envChromaFail storesEmpty ("2301.00001")).1 = JobResult.failed ∧
    (process_new_paper envChromaFail storesEmpty ("2301.00001")).2.1.sqliteRow.map
        StoredPaper.processed = some 2 ∧
    (process_new_paper envChromaFail storesEmpty ("2301.00001")).2.1.chromaHas = false := by
  decide

/-- C2: the claim states processing_state = completed iff a vector record
exists once a job has terminated. After a job whose ChromaDB upsert fails,
the terminated state has processed = 2 with no vector record, violating the
invariant. -/
theorem c2_consistency_invariant_violated :
    ¬ consistencyInvariant (process_new_paper envChromaFail storesEmpty ("2301.00001")).2.1 ∧
    (process_new_paper envChromaFail storesEmpty ("2301.00001")).1 = JobResult.failed := by
  decide

/-- C3 counterexample: the claim says a document with at most 15 pages is
returned as all its pages with no truncation marker, i.e. the extractor
would return the plain concatenation of the pages. On a 1-page document the
code inserts the marker anyway (the append at tasks.py line 84 /
process_pdfs.py line 45 is unconditional), so the output differs from the
concatenation of the pages. -/
theorem c3_short_document_has_marker :
    extract_text_from_pdf [("page one text")] ≠ String.join [("page one text")] := by
  decide
/-- C3 amended: the extractor returns the first min(n, 15) pages, then always
the truncation marker, then (only when n > 15) the pages from
max(15, n - 10) onward — so for n ≤ 15 all pages followed by the marker,
and the tail is the last 10 pages only once n exceeds 25. -/
theorem c3_truncation_actual_behavior (pages : List String) :
    extract_text_from_pdf pages
        = String.join (pages.take PAGES_FROM_START ++ [TRUNCATION_MARKER]
            ++ pages.drop (max PAGES_FROM_START (pages.length - PAGES_FROM_END))) ∧
    (pages.length ≤ PAGES_FROM_START →
      extract_text_from_pdf pages = String.join (pages ++ [TRUNCATION_MARKER])) ∧
    (PAGES_FROM_START + PAGES_FROM_END < pages.length →
      extract_text_from_pdf pages
        = String.join (pages.take PAGES_FROM_START ++ [TRUNCATION_MARKER]
            ++ pages.drop (pages.length - PAGES_FROM_END))) := by
  have main : extract_text_from_pdf pages
      = String.join (pages.take PAGES_FROM_START ++ [TRUNCATION_MARKER]
          ++ pages.drop (max PAGES_FROM_START (pages.length - PAGES_FROM_END))) := by
    unfold extract_text_from_pdf
    dsimp only
    by_cases h : PAGES_FROM_START < pages.length
    · rw [if_pos h, Nat.min_eq_right (Nat.le_of_lt h)]
    · rw [if_neg h]
      have hle : pages.length ≤ PAGES_FROM_START := Nat.le_of_not_lt h
      have hmax : max PAGES_FROM_START (pages.length - PAGES_FROM_END)
          = PAGES_FROM_START := by
        have : pages.length - PAGES_FROM_END ≤ PAGES_FROM_START := by omega
        omega
      rw [Nat.min_eq_left hle, List.take_length, hmax,
        List.drop_eq_nil_of_le hle, List.take_of_length_le hle]
  refine ⟨main, ?_, ?_⟩
  · intro hle
    rw [main]
    have hmax : max PAGES_FROM_START (pages.length - PAGES_FROM_END)
        = PAGES_FROM_START := by unfold PAGES_FROM_START PAGES_FROM_END at *; omega
    rw [hmax, List.drop_eq_nil_of_le hle, List.take_of_length_le hle,
      List.append_nil]
  · intro hgt
    rw [main]
    have hmax : max PAGES_FROM_START (pages.length - PAGES_FROM_END)
        = pages.length - PAGES_FROM_END := by
      unfold PAGES_FROM_START PAGES_FROM_END at *; omega
    rw [hmax]

/-- C3 witness: the amended behavior at the spec's 30-page test document —
first 15 pages, the marker, then pages 21-30 (the last 10). -/
theorem c3_truncation_actual_behavior_witness :
    extract_text_from_pdf pages30
      = String.join (pages30.take 15 ++ [TRUNCATION_MARKER] ++ pages30.drop 20) := by
  have h := (c3_truncation_actual_behavior pages30).2.2
  exact h (by decide)
/-- C5: with a non-empty keyword query whose semantic candidate set is
empty, the search returns an empty page with total_items = 0, whatever the
relational store contains — there is no fallback lexical scan. -/
theorem c5_empty_candidates_empty_page (store : List PaperRow) (s : String)
    (has_code : Option Bool) (page per_page : Nat) (hs : s ≠ "") :
    (read_papers store [] (some s) has_code page per_page).total_items = 0 ∧
    (read_papers store [] (some s) has_code page per_page).items = [] := by
  simp only [read_papers]
  rw [if_neg hs, if_pos trivial]
  exact ⟨rfl, rfl⟩

/-- C5 witness: rowA lexically matches the query in its title, yet with an
empty candidate set the page is empty. -/
theorem c5_empty_candidates_empty_page_witness :
    (read_papers [rowA] [] (some ("vision")) none 1 12).total_items = 0 ∧
    (read_papers [rowA] [] (some ("vision")) none 1 12).items = [] ∧
    sqlIlike rowA.title (searchPattern ("vision")) = true := by
  have h := c5_empty_candidates_empty_page [rowA] ("vision") none 1 12 (by decide)
  exact ⟨h.1, h.2, by decide⟩

/-- C10: the empty-candidate early return (main.py line 124) fixes page to 1
and total_pages to 0 whatever page the client requested, and bypasses the
has_code filter entirely (the whole response is independent of has_code). -/
theorem c10_empty_candidates_page_meta (store : List PaperRow) (s : String)
    (has_code : Option Bool) (page per_page : Nat) (hs : s ≠ "") :
    read_papers store [] (some s) has_code page per_page =
      { total_items := 0, total_pages := 0, page := 1, per_page := per_page,
        items := [] } := by
  simp only [read_papers]
  rw [if_neg hs, if_pos trivial]

/-- C10 witness: requested page 7 with an active has_code filter still
yields page = 1, total_pages = 0. -/
theorem c10_empty_candidates_page_meta_witness :
    read_papers [rowB] [] (some ("nets")) (some true) 7 5 =
      { total_items := 0, total_pages := 0, page := 1, per_page := 5,
        items := [] } :=
  c10_empty_candidates_page_meta [rowB] ("nets") (some true) 7 5 (by decide)

/-- C9 counterexample: the claim says a string field absent from the LLM
response defaults to the empty string in the stored record; the backend
worker (tasks.py line 153) stores `extracted_info.get('title')`, which is
None — SQL NULL — not the empty string. -/
theorem c9_worker_absent_title_is_null :
    (storedRowFromWorker ("2301.00001") ("A,B") infoEmpty).title = none ∧
    ((none : Option String) ≠ some ("")) := by
  decide

/-- C9 amended: absent list fields default to the empty list in both write
paths, and absent string fields default to the empty string in the batch
path only; the backend worker stores absent string fields unchanged as
None/NULL. -/
theorem c9_defaulting_actual_behavior (pid authors : String) (info : ExtractedInfo) :
    (storedRowFromWorker pid authors info).title = info.title ∧
    (storedRowFromWorker pid authors info).abstract = info.abstract ∧
    (storedRowFromWorker pid authors info).contribution = info.contribution ∧
    (info.tasks = none → (storedRowFromWorker pid authors info).tasks = []) ∧
    (info.methods = none → (storedRowFromWorker pid authors info).methods = []) ∧
    (info.datasets = none → (storedRowFromWorker pid authors info).datasets = []) ∧
    (info.code_links = none → (storedRowFromWorker pid authors info).code_links = []) ∧
    (info.results = none → (storedRowFromWorker pid authors info).results = []) ∧
    (info.title = none → (storedRowFromBatch pid info).title = some ("")) ∧
    (info.abstract = none → (storedRowFromBatch pid info).abstract = some ("")) ∧
    (info.contribution = none → (storedRowFromBatch pid info).contribution = some ("")) ∧
    (info.tasks = none → (storedRowFromBatch pid info).tasks = []) ∧
    (info.methods = none → (storedRowFromBatch pid info).methods = []) ∧
    (info.datasets = none → (storedRowFromBatch pid info).datasets = []) ∧
    (info.code_links = none → (storedRowFromBatch pid info).code_links = []) ∧
    (info.results = none → (storedRowFromBatch pid info).results = []) := by
  unfold storedRowFromWorker storedRowFromBatch
  refine ⟨rfl, rfl, rfl, ?_, ?_, ?_, ?_, ?_, ?_, ?_, ?_, ?_, ?_, ?_, ?_, ?_⟩ <;>
    (intro h; rw [h]) <;> rfl

/-- C9 witness: the amended defaulting at a fully-absent response. -/
theorem c9_defaulting_actual_behavior_witness :
    (storedRowFromWorker ("x") ("a") infoEmpty).tasks = [] ∧
    (storedRowFromBatch ("x") infoEmpty).title = some ("") := by
  have h := c9_defaulting_actual_behavior ("x") ("a") infoEmpty
  exact ⟨h.2.2.2.1 rfl, h.2.2.2.2.2.2.2.2.1 rfl⟩

/-- C4 counterexample: the claim says score 3 is assigned exactly when the
query is a case-insensitive substring of the title (and score 1 when it
matches neither title nor abstract as a substring). The code instead feeds
the query into a SQL LIKE pattern, where an underscore is a single-character
wildcard: for query "_" and title "ab" no substring match exists, yet the
code assigns score 3. -/
theorem c4_wildcard_query_not_substring :
    rankingScore ("_") rowWildcard = 3 ∧
    ¬ specSubstringCI ("_") ("ab") ∧ rowWildcard.title = some ("ab") ∧
    rowWildcard.abstract = none := by
  decide
/-- C7: a submission is rejected with a conflict iff a row for the
identifier already exists with processed = 2 (completed); otherwise —
absent row, pending (0/1/NULL) or failed — and an available queue, the
submission is accepted. -/
theorem c7_submit_conflict_iff_completed (store : List PaperRow)
    (enqueueOk : Bool) (aid : String)
    (hids : (store.map PaperRow.id).Nodup) :
    (submit_paper_for_processing store enqueueOk aid = SubmitResult.conflict ↔
      ∃ p ∈ store, p.id = aid ∧ p.processed = some 2) ∧
    (enqueueOk = true →
      (¬ ∃ p ∈ store, p.id = aid ∧ p.processed = some 2) →
      submit_paper_for_processing store enqueueOk aid = SubmitResult.accepted) := by
  unfold submit_paper_for_processing
  rcases hf : store.find? (fun p => p.id == aid) with _ | p <;> simp only [hf]
  · rw [List.find?_eq_none] at hf
    have hno : ¬ ∃ q ∈ store, q.id = aid ∧ q.processed = some 2 := by
      rintro ⟨q, hq, hqid, _⟩
      exact hf q hq (by simp [hqid])
    refine ⟨⟨fun h => ?_, fun h => absurd h hno⟩, fun he _ => by simp [he]⟩
    cases enqueueOk <;> simp_all
  · have hmem : p ∈ store := List.mem_of_find?_eq_some hf
    have hpid : p.id = aid := by simpa using List.find?_some hf
    rcases hb : (p.processed == some 2) with _ | _
    · have hp2 : p.processed ≠ some 2 := by simpa using hb
      have hno : ¬ ∃ q ∈ store, q.id = aid ∧ q.processed = some 2 := by
        rintro ⟨q, hq, hqid, hq2⟩
        have hqp : q = p :=
          List.inj_on_of_nodup_map hids hq hmem (by rw [hqid, hpid])
        exact hp2 (hqp ▸ hq2)
      simp only [hb, Bool.false_eq_true, if_false]
      refine ⟨⟨fun h => ?_, fun h => absurd h hno⟩, fun he _ => by simp [he]⟩
      cases enqueueOk <;> simp_all
    · have hp2 : p.processed = some 2 := by simpa using hb
      simp only [hb, if_true]
      exact ⟨⟨fun _ => ⟨p, hmem, hpid, hp2⟩, fun _ => trivial⟩,
        fun _ hno => absurd ⟨p, hmem, hpid, hp2⟩ hno⟩

/-- C7 witness: resubmitting a completed identifier conflicts; resubmitting
a failed one is accepted. -/
theorem c7_submit_conflict_iff_completed_witness :
    submit_paper_for_processing [rowA] true ("A") = SubmitResult.conflict ∧
    submit_paper_for_processing [{ rowC with processed := some 1 }] true ("C")
      = SubmitResult.accepted := by
  have h1 := c7_submit_conflict_iff_completed [rowA] true ("A") (by decide)
  have h2 := c7_submit_conflict_iff_completed
    [{ rowC with processed := some 1 }] true ("C") (by decide)
  exact ⟨h1.1.mpr ⟨rowA, by decide, by decide, by decide⟩,
    h2.2 rfl (by decide)⟩
/-- C8: in the ingestion job, every stage runs only if all earlier stages
succeeded (a failure aborts the remaining stages: no LLM call after a failed
extraction, no store write after a failed embedding, no vector write after a
failed relational commit, and the store states are untouched by stages that
did not run), and the job terminates with the Failed record exactly when
some stage failed — Success requires every stage to have succeeded. -/
theorem c8_failure_aborts_pipeline (env : WorkerEnv) (s0 : Stores) (aid : String) :
    ((process_new_paper env s0 aid).2.2.downloaded = true → env.fetchOk = true) ∧
    ((process_new_paper env s0 aid).2.2.extractCalled = true →
      env.fetchOk = true ∧ env.downloadOk = true) ∧
    ((process_new_paper env s0 aid).2.2.llmCalled = true →
      env.fetchOk = true ∧ env.downloadOk = true ∧ textTruthy env.extractedText = true) ∧
    ((process_new_paper env s0 aid).2.2.parseCalled = true →
      env.fetchOk = true ∧ env.downloadOk = true ∧ textTruthy env.extractedText = true ∧
      env.llmOk = true) ∧
    ((process_new_paper env s0 aid).2.2.embedCalled = true →
      env.fetchOk = true ∧ env.downloadOk = true ∧ textTruthy env.extractedText = true ∧
      env.llmOk = true ∧ env.parsedInfo.isSome = true) ∧
    ((process_new_paper env s0 aid).2.2.sqliteWriteCalled = true →
      env.fetchOk = true ∧ env.downloadOk = true ∧ textTruthy env.extractedText = true ∧
      env.llmOk = true ∧ env.parsedInfo.isSome = true ∧ env.embedOk = true) ∧
    ((process_new_paper env s0 aid).2.2.chromaWriteCalled = true →
      env.fetchOk = true ∧ env.downloadOk = true ∧ textTruthy env.extractedText = true ∧
      env.llmOk = true ∧ env.parsedInfo.isSome = true ∧ env.embedOk = true ∧
      env.sqliteOk = true) ∧
    ((process_new_paper env s0 aid).2.2.sqliteWriteCalled = false ∨ env.sqliteOk = false →
      (process_new_paper env s0 aid).2.1.sqliteRow = s0.sqliteRow) ∧
    ((process_new_paper env s0 aid).2.2.chromaWriteCalled = false ∨ env.chromaOk = false →
      (process_new_paper env s0 aid).2.1.chromaHas = s0.chromaHas) ∧
    ((env.fetchOk = false ∨ env.downloadOk = false ∨ textTruthy env.extractedText = false ∨
        env.llmOk = false ∨ env.parsedInfo = none ∨ env.embedOk = false ∨
        env.sqliteOk = false ∨ env.chromaOk = false) →
      (process_new_paper env s0 aid).1 = JobResult.failed) ∧
    ((process_new_paper env s0 aid).1 = JobResult.success ↔
      env.fetchOk = true ∧ env.downloadOk = true ∧ textTruthy env.extractedText = true ∧
      env.llmOk = true ∧ env.parsedInfo.isSome = true ∧ env.embedOk = true ∧
      env.sqliteOk = true ∧ env.chromaOk = true) := by
  obtain ⟨f, aj, d, et, lo, pi, em, sq, ch⟩ := env
  cases f <;> cases d <;> cases het : textTruthy et <;> cases lo <;>
    cases pi <;> cases em <;> cases sq <;> cases ch <;>
    simp_all [process_new_paper]

/-- C8 witness: a job whose LLM call fails terminates Failed, never reaches
the embedding or the stores, and leaves both stores untouched. -/
theorem c8_failure_aborts_pipeline_witness :
    (process_new_paper envLlmFail storesEmpty ("w")).1 = JobResult.failed ∧
    (process_new_paper envLlmFail storesEmpty ("w")).2.1.sqliteRow
      = storesEmpty.sqliteRow ∧
    (process_new_paper envLlmFail storesEmpty ("w")).2.1.chromaHas
      = storesEmpty.chromaHas := by
  have h := c8_failure_aborts_pipeline envLlmFail storesEmpty ("w")
  obtain ⟨_, _, _, _, _, _, _, h8, h9, h10, _⟩ := h
  exact ⟨h10 (by decide), h8 (by decide), h9 (by decide)⟩
instance (s : String) (ids : List String) : IsTotal PaperRow (hybridLe s ids) := by
  constructor
  intro p q
  unfold hybridLe
  rcases Nat.lt_trichotomy (rankingScore s p) (rankingScore s q) with h | h | h
  · exact Or.inr (Or.inl h)
  · rcases Nat.le_total (List.indexOf p.id ids) (List.indexOf q.id ids) with hle | hle
    · exact Or.inl (Or.inr ⟨h, hle⟩)
    · exact Or.inr (Or.inr ⟨h.symm, hle⟩)
  · exact Or.inl (Or.inl h)

instance (s : String) (ids : List String) : IsTrans PaperRow (hybridLe s ids) := by
  constructor
  intro a b c hab hbc
  unfold hybridLe at *
  rcases hab with h1 | ⟨h1, h2⟩ <;> rcases hbc with h3 | ⟨h3, h4⟩ <;> omega

/-- C4 amended: over every store and candidate set, the query path's ordered
candidate list is a permutation of the rows whose id is a semantic
candidate, ordered by lexical score descending with ties broken by the
original semantic rank ascending; the lexical score is 3 when the title
matches the case-insensitive SQL LIKE pattern %query% (LIKE wildcards in
the query stay active, so this is substring matching only for wildcard-free
queries), 2 when only the abstract matches it, 1 otherwise; and the items
the endpoint returns are the page-window of exactly that ordered list. -/
theorem c4_ranking_like_and_order (store : List PaperRow) (ids : List String)
    (s : String) (page per_page : Nat) :
    (hybridOrdered store ids s).Perm
      (store.filter (fun p => decide (p.id ∈ ids))) ∧
    List.Pairwise (fun p q => rankingScore s q < rankingScore s p ∨
      (rankingScore s p = rankingScore s q ∧
        List.indexOf p.id ids ≤ List.indexOf q.id ids)) (hybridOrdered store ids s) ∧
    (∀ p : PaperRow,
      (sqlIlike p.title (searchPattern s) = true → rankingScore s p = 3) ∧
      (sqlIlike p.title (searchPattern s) = false →
        sqlIlike p.abstract (searchPattern s) = true → rankingScore s p = 2) ∧
      (sqlIlike p.title (searchPattern s) = false →
        sqlIlike p.abstract (searchPattern s) = false → rankingScore s p = 1)) ∧
    (ids ≠ [] → s ≠ "" →
      (read_papers store ids (some s) none page per_page).items
        = ((hybridOrdered store ids s).drop ((page - 1) * per_page)).take per_page) := by
  refine ⟨List.perm_insertionSort _ _, ?_, ?_, ?_⟩
  · exact List.sorted_insertionSort (hybridLe s ids) _
  · intro p
    exact ⟨fun h1 => by simp [rankingScore, h1],
      fun h1 h2 => by simp [rankingScore, h1, h2],
      fun h1 h2 => by simp [rankingScore, h1, h2]⟩
  · intro hids hs
    simp only [read_papers]
    rw [if_neg hs, if_neg hids]
    rfl

/-- C4 witness: the spec's ranking example — query "vision", semantic order
[C, A, B]; A matches in the title (3), B only in the abstract (2), C is
semantic-only (1), and the returned page is [A, B, C]. -/
theorem c4_ranking_like_and_order_witness :
    rankingScore ("vision") rowA = 3 ∧
    rankingScore ("vision") rowB = 2 ∧
    rankingScore ("vision") rowC = 1 ∧
    (read_papers storeABC [("C"), ("A"), ("B")] (some ("vision")) none 1 12).items
      = [rowA, rowB, rowC] := by
  have h := c4_ranking_like_and_order storeABC [("C"), ("A"), ("B")] ("vision") 1 12
  refine ⟨(h.2.2.1 rowA).1 (by decide),
    (h.2.2.1 rowB).2.1 (by decide) (by decide),
    (h.2.2.1 rowC).2.2 (by decide) (by decide),
    (h.2.2.2 (by decide) (by decide)).trans (by decide)⟩
instance (rec : List String) : IsTotal PaperRow (recOrderLe rec) := by
  constructor
  intro p q
  unfold recOrderLe
  exact Nat.le_total _ _

instance (rec : List String) : IsTrans PaperRow (recOrderLe rec) := by
  constructor
  intro a b c hab hbc
  unfold recOrderLe at *
  omega

/-- Splitting a filter over a disjunction of disjoint predicates, up to
permutation. -/
theorem filterOrPerm {α : Type} (l : List α) (p q : α → Bool)
    (hdisj : ∀ a, p a = true → q a = false) :
    (l.filter (fun a => p a || q a)).Perm (l.filter p ++ l.filter q) := by
  induction l with
  | nil => simp
  | cons a l ih =>
    by_cases hp : p a = true
    · have hq := hdisj a hp
      simp only [List.filter_cons, hp, hq, Bool.true_or, if_true, Bool.false_eq_true,
        if_false, List.cons_append]
      exact ih.cons a
    · have hp' : p a = false := by simpa using hp
      by_cases hq : q a = true
      · simp only [List.filter_cons, hp', hq, Bool.false_or, if_true, Bool.false_eq_true,
          if_false]
        exact (ih.cons a).trans List.perm_middle.symm
      · have hq' : q a = false := by simpa using hq
        simp only [List.filter_cons, hp', hq', Bool.false_or, Bool.false_eq_true, if_false]
        exact ih

/-- With distinct row ids, filtering on one id yields exactly the row that
find? locates (at most one row). -/
theorem filterIdEqFind (store : List PaperRow) (pid : String)
    (hids : (store.map PaperRow.id).Nodup) :
    store.filter (fun r => r.id == pid) = (store.find? (fun r => r.id == pid)).toList := by
  induction store with
  | nil => rfl
  | cons r store ih =>
    simp only [List.map_cons, List.nodup_cons] at hids
    obtain ⟨hnotmem, hnodup⟩ := hids
    by_cases h : (r.id == pid) = true
    · have hrid : r.id = pid := by simpa using h
      have hnil : store.filter (fun x => x.id == pid) = [] := by
        rw [List.filter_eq_nil_iff]
        intro x hx hxid
        have hxid' : x.id = pid := by simpa using hxid
        have : r.id ∈ List.map PaperRow.id store := by
          rw [hrid, ← hxid']
          exact List.mem_map_of_mem PaperRow.id hx
        exact hnotmem this
      simp [List.filter_cons, h, hnil]
    · have h' : (r.id == pid) = false := by simpa using h
      simp only [List.filter_cons, h', Bool.false_eq_true, if_false]
      rw [List.find?_cons_of_neg store h]
      exact ih hnodup

/-- The membership filter over the store is, up to permutation, the ordered
per-id find? join. -/
theorem filterMemPermFilterMap (store : List PaperRow) (rec : List String)
    (hids : (store.map PaperRow.id).Nodup) (hrec : rec.Nodup) :
    (store.filter (fun r => decide (r.id ∈ rec))).Perm
      (rec.filterMap (fun pid => store.find? (fun r => r.id == pid))) := by
  induction rec with
  | nil => simp
  | cons pid rec ih =>
    obtain ⟨hpid, hrecN⟩ := List.nodup_cons.mp hrec
    have heq : store.filter (fun r => decide (r.id ∈ pid :: rec))
        = store.filter (fun r => (r.id == pid) || decide (r.id ∈ rec)) := by
      apply List.filter_congr
      intro a _
      by_cases hcase : a.id = pid <;> simp [hcase, List.mem_cons]
    have step1 : (store.filter (fun r => decide (r.id ∈ pid :: rec))).Perm
        (store.filter (fun r => r.id == pid)
          ++ store.filter (fun r => decide (r.id ∈ rec))) := by
      rw [heq]
      refine filterOrPerm store _ _ (fun a ha => ?_)
      have haid : a.id = pid := by simpa using ha
      simp [haid, hpid]
    refine step1.trans ?_
    rw [List.filterMap_cons, filterIdEqFind store pid hids]
    cases hfind : store.find? (fun r => r.id == pid) with
    | none =>
      simp only [Option.toList, List.nil_append]
      exact ih hrecN
    | some r =>
      simp only [Option.toList, List.singleton_append]
      exact (ih hrecN).cons r
/-- Every row produced by the per-id find? join carries an id from the
recommended list. -/
theorem id_mem_of_mem_filterMapJoin {store : List PaperRow} {rec : List String}
    {q : PaperRow}
    (h : q ∈ rec.filterMap (fun pid => store.find? (fun r => r.id == pid))) :
    q.id ∈ rec := by
  rw [List.mem_filterMap] at h
  obtain ⟨pid, hpid, hfind⟩ := h
  have hq := List.find?_some hfind
  have hq' : q.id = pid := by simpa using hq
  rwa [hq']

/-- The per-id find? join is strictly ordered by position in the
recommended list. -/
theorem pairwiseStrictFilterMap (store : List PaperRow) (rec : List String)
    (hrec : rec.Nodup) :
    List.Pairwise (fun p q : PaperRow =>
        List.indexOf p.id rec < List.indexOf q.id rec)
      (rec.filterMap (fun pid => store.find? (fun r => r.id == pid))) := by
  induction rec with
  | nil => simp
  | cons pid rec ih =>
    obtain ⟨hpid, hrecN⟩ := List.nodup_cons.mp hrec
    rw [List.filterMap_cons]
    have hshift : ∀ {x : PaperRow},
        x ∈ rec.filterMap (fun pid2 => store.find? (fun r => r.id == pid2)) →
        List.indexOf x.id (pid :: rec) = List.indexOf x.id rec + 1 := by
      intro x hx
      have hxid : x.id ∈ rec := id_mem_of_mem_filterMapJoin hx
      have hne : pid ≠ x.id := fun he => hpid (he ▸ hxid)
      rw [List.indexOf_cons_ne _ hne]
    have htail : List.Pairwise (fun p q : PaperRow =>
        List.indexOf p.id (pid :: rec) < List.indexOf q.id (pid :: rec))
        (rec.filterMap fun pid2 => store.find? (fun r => r.id == pid2)) := by
      refine (ih hrecN).imp_of_mem ?_
      intro a b ha hb hlt
      rw [hshift ha, hshift hb]
      omega
    cases hfind : store.find? (fun r => r.id == pid) with
    | none => exact htail
    | some r =>
      rw [List.pairwise_cons]
      refine ⟨?_, htail⟩
      intro b hb
      have hrid : r.id = pid := by simpa using List.find?_some hfind
      rw [hrid, List.indexOf_cons_self, hshift hb]
      omega

/-- The SQL join (filter + ORDER BY position) is strictly ordered by
position in the recommended list when ids are distinct on both sides. -/
theorem pairwiseStrictJoin (store : List PaperRow) (rec : List String)
    (hids : (store.map PaperRow.id).Nodup) (_hrec : rec.Nodup) :
    List.Pairwise (fun p q : PaperRow =>
        List.indexOf p.id rec < List.indexOf q.id rec)
      (joinPreservingOrder store rec) := by
  have hsorted : List.Pairwise (recOrderLe rec) (joinPreservingOrder store rec) :=
    List.sorted_insertionSort (recOrderLe rec) _
  have hperm : (joinPreservingOrder store rec).Perm
      (store.filter (fun p => decide (p.id ∈ rec))) :=
    List.perm_insertionSort _ _
  have hnodupIds : ((joinPreservingOrder store rec).map PaperRow.id).Nodup := by
    have hsub : List.Sublist
        ((store.filter (fun p => decide (p.id ∈ rec))).map PaperRow.id)
        (store.map PaperRow.id) := (List.filter_sublist _).map PaperRow.id
    have hnf : ((store.filter (fun p => decide (p.id ∈ rec))).map PaperRow.id).Nodup :=
      hids.sublist hsub
    exact ((hperm.map PaperRow.id).nodup_iff).mpr hnf
  have hmemrec : ∀ p ∈ joinPreservingOrder store rec, p.id ∈ rec := by
    intro p hp
    have hp' : p ∈ store.filter (fun p => decide (p.id ∈ rec)) := hperm.mem_iff.mp hp
    have hd := List.of_mem_filter hp'
    simpa using hd
  have hne : List.Pairwise (fun p q : PaperRow => p.id ≠ q.id)
      (joinPreservingOrder store rec) := by
    simpa [List.Nodup, List.pairwise_map] using hnodupIds
  refine (hsorted.and hne).imp_of_mem ?_
  intro a b ha hb hab
  obtain ⟨hle, hneq⟩ := hab
  have hle' : List.indexOf a.id rec ≤ List.indexOf b.id rec := hle
  have hia := hmemrec a ha
  have hib := hmemrec b hb
  refine lt_of_le_of_ne hle' (fun heq => hneq ?_)
  exact (List.indexOf_inj hia hib).mp heq

/-- With distinct ids on both sides, the SQL join equals the per-id find?
join in recommended order: shared rows in neighbor order, missing ids
silently dropped. -/
theorem joinEqFilterMap (store : List PaperRow) (rec : List String)
    (hids : (store.map PaperRow.id).Nodup) (hrec : rec.Nodup) :
    joinPreservingOrder store rec
      = rec.filterMap (fun pid => store.find? (fun r => r.id == pid)) := by
  haveI : IsAntisymm PaperRow (fun p q : PaperRow =>
      List.indexOf p.id rec < List.indexOf q.id rec) :=
    ⟨fun a b h1 h2 => absurd (Nat.lt_trans h1 h2) (Nat.lt_irrefl _)⟩
  exact List.eq_of_perm_of_sorted
    ((List.perm_insertionSort _ _).trans (filterMemPermFilterMap store rec hids hrec))
    (pairwiseStrictJoin store rec hids hrec)
    (pairwiseStrictFilterMap store rec hrec)
/-- C6: for an identifier X present in the vector index whose nearest
neighbors come back as [X, P1, ..., Pk], the endpoint returns, for each Pi
in neighbor order, its relational row — X itself excluded and any neighbor
without a relational row silently dropped. -/
theorem c6_recommendation_order_and_drop (chromaIds neighbors : List String)
    (store : List PaperRow) (X : String) (ps : List String)
    (hn : neighbors = X :: ps) (hX : X ∈ chromaIds) (hXps : X ∉ ps)
    (hps : ps.Nodup) (hids : (store.map PaperRow.id).Nodup) :
    get_recommendations chromaIds neighbors store X
      = ps.filterMap (fun pid => store.find? (fun r => r.id == pid)) := by
  subst hn
  unfold get_recommendations
  rw [if_pos hX]
  have hfil : (X :: ps).filter (fun pid => pid != X) = ps := by
    simp only [List.filter_cons, bne_self_eq_false, Bool.false_eq_true, if_false]
    rw [List.filter_eq_self]
    intro a ha
    simpa using ne_of_mem_of_not_mem ha hXps
  simp only [hfil]
  by_cases hps0 : ps = []
  · subst hps0
    simp
  · rw [if_neg hps0]
    exact joinEqFilterMap store ps hids hps

/-- C6 witness: X with neighbor list [X, P1, P2, P3, P4, P5]; the store
holds P1, P2, P4, P5 (in a different insertion order) but not P3, and the
result is [P1, P2, P4, P5] in neighbor order. -/
theorem c6_recommendation_order_and_drop_witness :
    get_recommendations [("X"), ("P1"), ("P2"), ("P3"), ("P4"), ("P5")]
        [("X"), ("P1"), ("P2"), ("P3"), ("P4"), ("P5")] storeP ("X")
      = [rowP1, rowP2, rowP4, rowP5] := by
  have h := c6_recommendation_order_and_drop
    [("X"), ("P1"), ("P2"), ("P3"), ("P4"), ("P5")]
    [("X"), ("P1"), ("P2"), ("P3"), ("P4"), ("P5")] storeP ("X")
    [("P1"), ("P2"), ("P3"), ("P4"), ("P5")]
    rfl (by decide) (by decide) (by decide) (by decide)
  exact h.trans (by decide)
